import Mathlib

/-!
Shallow embedding of the intelligent traffic control system's core logic:
the signal timing algorithms and intersection coordinator from
`src/lib/traffic-algorithms.ts`, the control actions from
`src/app/api/traffic/control/route.ts`, and the vehicle generation /
movement model from `src/lib/data-generator.ts`.

Times (`now`, `lastChanged`, durations) are rationals measured in seconds;
`elapsed` is `(currentTime.getTime() - lastChanged.getTime()) / 1000`.
Vehicle counts are integers (JS numbers that the source repeatedly guards
with `Math.max(0, …)`, so negative stored values are representable).
Optional JS fields (`light.road?`, `light.timing`, `intersection?.algorithm`)
are `Option`s.
-/

namespace Traffic

inductive Status where
  | RED
  | YELLOW
  | GREEN
  | FLASHING_RED
  | FLASHING_YELLOW
  | MAINTENANCE
deriving DecidableEq

inductive Algorithm where
  | FIXED
  | ADAPTIVE
  | AI_OPTIMIZED
  | EMERGENCY
deriving DecidableEq

inductive VehicleType where
  | CAR
  | BUS
  | MOTORCYCLE
  | TRUCK
  | EMERGENCY
  | BICYCLE
deriving DecidableEq

structure Vehicle where
  vtype : VehicleType
  priority : ℤ
  position : ℚ
deriving DecidableEq

structure Road where
  vehicleCount : ℤ
  maxCapacity : ℤ
  congestionLevel : ℚ
  averageSpeed : ℚ
  vehicles : List Vehicle
deriving DecidableEq

structure Timing where
  red : ℚ
  yellow : ℚ
  green : ℚ
  cycle : ℚ
deriving DecidableEq

/-- A traffic light record as the algorithms receive it: its own fields plus
the included `road` relation and the owning intersection's `algorithm`
(the source reads `currentLight.intersection?.algorithm`). -/
structure TrafficLight where
  id : ℕ
  status : Status
  timing : Option Timing
  lastChanged : ℚ
  road : Option Road
  intersectionAlgorithm : Option Algorithm
deriving DecidableEq

structure AlgorithmResult where
  newStatus : Status
  timing : Timing
  efficiency : Option ℚ
  waitTime : Option ℚ
deriving DecidableEq

structure Intersection where
  trafficLights : List TrafficLight
deriving DecidableEq

/-- Models the JS numeric idiom `x || d` (a zero value falls back to `d`). -/
def jsOr (x d : ℚ) : ℚ := if x = 0 then d else x

/-- `Math.min` on numbers (kernel-reducible conditional on ℚ). -/
def jsMin (a b : ℚ) : ℚ := if a ≤ b then a else b

/-- `Math.max` on numbers (kernel-reducible conditional on ℚ). -/
def jsMax (a b : ℚ) : ℚ := if a ≤ b then b else a

/-- Models `Math.max(0, light.road?.vehicleCount || 0)`. -/
def TrafficLight.vcOf (l : TrafficLight) : ℤ :=
  max 0 ((l.road.map Road.vehicleCount).getD 0)

/-- Models `light.road?.congestionLevel || 0`. -/
def TrafficLight.congOf (l : TrafficLight) : ℚ :=
  (l.road.map Road.congestionLevel).getD 0

/-- Models `Math.max(0, Math.min(1, light.road?.congestionLevel || 0))`. -/
def TrafficLight.congClamped (l : TrafficLight) : ℚ :=
  jsMax 0 (jsMin 1 l.congOf)

/-- Models `currentLight.road?.vehicles?.some(v => v.type === 'EMERGENCY' && v.priority === 2) || false`. -/
def hasEmergencyVehicles (l : TrafficLight) : Bool :=
  (l.road.map fun r =>
    r.vehicles.any fun v =>
      decide (v.vtype = VehicleType.EMERGENCY ∧ v.priority = 2)).getD false

/-- The shared RED → GREEN → YELLOW → RED phase step used by every
per-light algorithm: the status after comparing `elapsed` against the
phase durations of `timing`. -/
def phaseStep (status : Status) (elapsed : ℚ) (timing : Timing) : Status :=
  if status = Status.RED ∧ elapsed ≥ timing.red then Status.GREEN
  else if status = Status.GREEN ∧ elapsed ≥ timing.green then Status.YELLOW
  else if status = Status.YELLOW ∧ elapsed ≥ timing.yellow then Status.RED
  else status

/-- `TrafficAlgorithms.fixedTiming`: hard-coded profile red=15, yellow=3,
green=8, cycle=26, ignoring the light's stored timing and its road. -/
def fixedTiming (l : TrafficLight) (now : ℚ) : AlgorithmResult :=
  let elapsed := now - l.lastChanged
  let timing : Timing := ⟨15, 3, 8, 26⟩
  ⟨phaseStep l.status elapsed timing, timing, none, none⟩

/-- `TrafficAlgorithms.adaptiveTiming`: green = min(7 + min(vehicleCount*0.5, 8), 15),
red = max(15 - vehicleCount, 8), yellow = 3, cycle computed as the sum. -/
def adaptiveTiming (l : TrafficLight) (now : ℚ) : AlgorithmResult :=
  let elapsed := now - l.lastChanged
  let vehicleCount : ℤ := l.vcOf
  let congestion : ℚ := l.congClamped
  let baseGreenTime : ℚ := 7
  let vehicleTimeBonus : ℚ := jsMin ((vehicleCount : ℚ) * 0.5) 8
  let greenTime : ℚ := jsMin (baseGreenTime + vehicleTimeBonus) 15
  let timing : Timing :=
    let r : ℚ := jsMax (15 - (vehicleCount : ℚ)) 8
    ⟨r, 3, greenTime, r + 3 + greenTime⟩
  let efficiency : ℚ := jsMax 0 (1 - congestion)
  let estimatedWaitTime : ℚ :=
    if vehicleCount > 0 then ((round (timing.red * congestion) : ℤ) : ℚ) else 0
  ⟨phaseStep l.status elapsed timing, timing, some efficiency, some estimatedWaitTime⟩

/-- `(hour >= 8 && hour <= 9) || (hour >= 12 && hour <= 13) || (hour >= 16 && hour <= 17)` -/
def isPeakHour (hour : ℤ) : Bool :=
  decide ((8 ≤ hour ∧ hour ≤ 9) ∨ (12 ≤ hour ∧ hour ≤ 13) ∨ (16 ≤ hour ∧ hour ≤ 17))

/-- `TrafficAlgorithms.aiOptimized`; `hour` stands for `currentTime.getHours()`. -/
def aiOptimized (l : TrafficLight) (now : ℚ) (hour : ℤ) : AlgorithmResult :=
  let elapsed := now - l.lastChanged
  let vehicleCount : ℤ := l.vcOf
  let congestion : ℚ := l.congClamped
  let avgSpeed : ℚ := jsMax 5 (jsOr ((l.road.map Road.averageSpeed).getD 0) 30)
  let baseGreenTime : ℚ := 7
  let vehicleBonus : ℚ :=
    let b := (vehicleCount : ℚ) * 0.4
    if isPeakHour hour then b * 1.2 else b
  let greenTime : ℚ := jsMin (baseGreenTime + vehicleBonus) 15
  let timing : Timing :=
    let r : ℚ := jsMax (12 - ((Int.floor ((vehicleCount : ℚ) * 0.3) : ℤ) : ℚ)) 6
    let g : ℚ := ((round greenTime : ℤ) : ℚ)
    ⟨r, 3, g, r + 3 + g⟩
  let flowRate : ℚ := (vehicleCount : ℚ) * (avgSpeed / 40) * (1 - congestion)
  let efficiency : ℚ := jsMin 1 (flowRate / jsMax (vehicleCount : ℚ) 1)
  let estimatedWaitTime : ℚ :=
    if vehicleCount > 0 then ((round (timing.red * congestion) : ℤ) : ℚ) else 0
  ⟨phaseStep l.status elapsed timing, timing, some efficiency, some estimatedWaitTime⟩

/-- `TrafficAlgorithms.emergency`: with an emergency vehicle present the status
is forced to GREEN immediately; otherwise the normal phase step runs with the
short profile red=5, yellow=2, green=20, cycle=27. -/
def emergency (l : TrafficLight) (now : ℚ) : AlgorithmResult :=
  let elapsed := now - l.lastChanged
  let timing : Timing := ⟨5, 2, 20, 27⟩
  let congestion : ℚ := l.congClamped
  if hasEmergencyVehicles l then
    ⟨Status.GREEN, timing, some 1, some 0⟩
  else
    ⟨phaseStep l.status elapsed timing, timing,
      some (jsMax 0 (1 - congestion)),
      some ((round (timing.red * congestion) : ℤ) : ℚ)⟩

/-- `TrafficAlgorithms.selectAlgorithm`: emergency vehicles (or an EMERGENCY
intersection) override; otherwise dispatch on the intersection's algorithm,
defaulting to adaptive (the `default:` arm also reaches adaptive). -/
def selectAlgorithm (l : TrafficLight) (now : ℚ) (hour : ℤ) : AlgorithmResult :=
  if hasEmergencyVehicles l ∨ l.intersectionAlgorithm = some Algorithm.EMERGENCY then
    emergency l now
  else
    match l.intersectionAlgorithm.getD Algorithm.ADAPTIVE with
    | Algorithm.FIXED => fixedTiming l now
    | Algorithm.ADAPTIVE => adaptiveTiming l now
    | Algorithm.AI_OPTIMIZED => aiOptimized l now hour
    | Algorithm.EMERGENCY => adaptiveTiming l now

/-- First element of the JS stable sort by
`Math.max(0, b.road?.vehicleCount || 0) - Math.max(0, a.road?.vehicleCount || 0)`
(descending): the first light attaining the maximal clamped vehicle count. -/
def maxByVC : List TrafficLight → Option TrafficLight
  | [] => none
  | l :: ls =>
    match maxByVC ls with
    | none => some l
    | some m => if m.vcOf > l.vcOf then some m else some l

/-- Green duration `Math.min(7 + (vehicleCount * 0.5), 15)` used when cycling
after an expired yellow. -/
def nextGreenTimeOf (vc : ℤ) : ℚ := jsMin (7 + (vc : ℚ) * 0.5) 15

/-- Green duration `Math.max(7, Math.min(7 + (vehicleCount * 0.5), 15))` used by
the green-light and new-cycle paths of the coordinator. -/
def greenTimeOf (vc : ℤ) : ℚ := jsMax 7 (jsMin (7 + (vc : ℚ) * 0.5) 15)

/-- `coordinateIntersection`, branch "yellow expired": the yellow light turns
RED, the other light with the most vehicles turns GREEN, the rest turn RED. -/
def yellowExpiredBranch (lights : List TrafficLight) (yl : TrafficLight) :
    List (ℕ × AlgorithmResult) :=
  let base : List (ℕ × AlgorithmResult) := [(yl.id, ⟨Status.RED, ⟨15, 3, 8, 26⟩, none, none⟩)]
  let otherLights := lights.filter fun l => l.id ≠ yl.id
  match maxByVC otherLights with
  | none => base
  | some ng =>
    let vc := ng.vcOf
    let nextGreenTime := nextGreenTimeOf vc
    base
      ++ [(ng.id, ⟨Status.GREEN, ⟨15, 3, nextGreenTime, 18 + nextGreenTime⟩,
            some (jsMax 0 (1 - ng.congOf)), some 0⟩)]
      ++ (otherLights.filter fun l => l.id ≠ ng.id).map fun l =>
            (l.id, ⟨Status.RED, ⟨15, 3, 8, 26⟩,
              some (jsMax 0 (1 - l.congOf)), some (nextGreenTime + 3)⟩)

/-- `coordinateIntersection`, branch "IMMEDIATE switch": the green light has no
vehicles while others wait, so it goes straight to RED (yellow is skipped) and
the busiest other light — if it has vehicles — turns GREEN. -/
def immediateBranch (lights : List TrafficLight) (gl : TrafficLight) :
    List (ℕ × AlgorithmResult) :=
  let base : List (ℕ × AlgorithmResult) := [(gl.id, ⟨Status.RED, ⟨8, 2, 7, 17⟩, none, none⟩)]
  let others := lights.filter fun l => l.id ≠ gl.id
  match maxByVC others with
  | none => base
  | some nl =>
    if nl.vcOf > 0 then
      let nextGreenTime := greenTimeOf nl.vcOf
      base
        ++ [(nl.id, ⟨Status.GREEN, ⟨12, 2, nextGreenTime, 14 + nextGreenTime⟩, some 1, some 0⟩)]
        ++ (lights.filter fun l => l.id ≠ gl.id ∧ l.id ≠ nl.id).map fun l =>
              (l.id, ⟨Status.RED, ⟨12, 2, 8, 22⟩, none, none⟩)
    else base

/-- `coordinateIntersection`, branch "green expired": green turns YELLOW and
every other light is (re)set RED. -/
def greenToYellowBranch (lights : List TrafficLight) (gl : TrafficLight)
    (greenTime : ℚ) : List (ℕ × AlgorithmResult) :=
  (gl.id, (⟨Status.YELLOW, ⟨12, 2, greenTime, 14 + greenTime⟩, none, none⟩ : AlgorithmResult))
    :: (lights.filter fun l => l.id ≠ gl.id).map fun l =>
        (l.id, ⟨Status.RED, ⟨12, 2, 8, 22⟩, none, none⟩)

/-- `coordinateIntersection`, branch "green continues": green stays GREEN and
every other light is (re)set RED. -/
def greenContinueBranch (lights : List TrafficLight) (gl : TrafficLight)
    (greenTime : ℚ) : List (ℕ × AlgorithmResult) :=
  (gl.id, (⟨Status.GREEN, ⟨12, 2, greenTime, 14 + greenTime⟩, none, none⟩ : AlgorithmResult))
    :: (lights.filter fun l => l.id ≠ gl.id).map fun l =>
        (l.id, ⟨Status.RED, ⟨12, 2, 8, 22⟩, none, none⟩)

/-- `coordinateIntersection`, branch "no green or yellow": the light with the
most vehicles starts a new cycle GREEN, all others RED. -/
def newCycleBranch (lights : List TrafficLight) : List (ℕ × AlgorithmResult) :=
  match maxByVC lights with
  | none => []
  | some pl =>
    let greenTime := greenTimeOf pl.vcOf
    (pl.id, (⟨Status.GREEN, ⟨12, 2, greenTime, 14 + greenTime⟩, some 1, some 0⟩ : AlgorithmResult))
      :: (lights.filter fun l => l.id ≠ pl.id).map fun l =>
          (l.id, ⟨Status.RED, ⟨12, 2, 8, 22⟩, none, none⟩)

/-- `coordinateIntersection`, final fallback: every light keeps its current
status and its stored timing (`light.timing || {red:15,yellow:3,green:8,cycle:26}`). -/
def noChangeBranch (lights : List TrafficLight) : List (ℕ × AlgorithmResult) :=
  lights.map fun l => (l.id, ⟨l.status, l.timing.getD ⟨15, 3, 8, 26⟩, none, none⟩)

/-- The part of `coordinateIntersection` reached when no expired-yellow return
fired: the green-light logic, then the new-cycle branch, then the fallback. -/
def coordAfterYellowCheck (lights : List TrafficLight)
    (greenLight yellowLight : Option TrafficLight) (now : ℚ) :
    List (ℕ × AlgorithmResult) :=
  match greenLight with
  | some gl =>
    let elapsed := now - gl.lastChanged
    let vehicleCount := gl.vcOf
    let greenTime := greenTimeOf vehicleCount
    let otherRoadsHaveVehicles :=
      (lights.filter fun l => l.id ≠ gl.id).any fun l => decide (l.vcOf > 0)
    if vehicleCount = 0 ∧ otherRoadsHaveVehicles = true ∧ elapsed ≥ 3 then
      immediateBranch lights gl
    else if elapsed ≥ greenTime then
      greenToYellowBranch lights gl greenTime
    else
      greenContinueBranch lights gl greenTime
  | none =>
    match yellowLight with
    | some _ => noChangeBranch lights
    | none => newCycleBranch lights

/-- `TrafficAlgorithms.coordinateIntersection`. `now` models the
`new Date()` taken at the start of the call. The returned association list
models the `{ [lightId]: AlgorithmResult }` object. -/
def coordinateIntersection (i : Intersection) (now : ℚ) :
    List (ℕ × AlgorithmResult) :=
  let lights := i.trafficLights
  if lights.isEmpty then []
  else
    let greenLight := lights.find? fun l => l.status = Status.GREEN
    let yellowLight := lights.find? fun l => l.status = Status.YELLOW
    match yellowLight with
    | some yl =>
      if now - yl.lastChanged ≥ 3 then yellowExpiredBranch lights yl
      else coordAfterYellowCheck lights greenLight (some yl) now
    | none => coordAfterYellowCheck lights greenLight none now

/-- How the cycle driver (`src/app/api/websocket/route.ts`) applies a
coordination result to one light: a light whose id appears in the results
object receives the result's status and timing; a light not mentioned keeps
its state. -/
def statusAfter (results : List (ℕ × AlgorithmResult)) (l : TrafficLight) : Status :=
  match results.lookup l.id with
  | some r => r.newStatus
  | none => l.status

/-- The per-light write of the cycle driver (`status` and `timing` from the
result object, untouched when the light's id is not among the results). -/
def applyLight (results : List (ℕ × AlgorithmResult)) (l : TrafficLight) :
    TrafficLight :=
  match results.lookup l.id with
  | some r => { l with status := r.newStatus, timing := some r.timing }
  | none => l

/-- Applying a coordination result object to every light of the snapshot. -/
def applyResults (lights : List TrafficLight) (results : List (ℕ × AlgorithmResult)) :
    List TrafficLight :=
  lights.map (applyLight results)

/-- Number of lights currently GREEN in a snapshot. -/
def greenCount (lights : List TrafficLight) : ℕ :=
  (lights.filter fun l => l.status = Status.GREEN).length

/-- The `intersection_emergency` action of `src/app/api/traffic/control/route.ts`:
every traffic light of the intersection is updated with `status: GREEN` and
`lastChanged: new Date()`. -/
def intersectionEmergency (lights : List TrafficLight) (now : ℚ) : List TrafficLight :=
  lights.map fun l => { l with status := Status.GREEN, lastChanged := now }

/-- The `update_timing` action of `src/app/api/traffic/control/route.ts`:
the provided timing object is written verbatim (no validation is performed
before the write) together with a fresh `lastChanged`. -/
def updateTimingAction (l : TrafficLight) (t : Timing) (now : ℚ) : TrafficLight :=
  { l with timing := some t, lastChanged := now }

/-! Embedding of `DataGenerator.simulateVehicleMovement` (the optimized
version, the last one in `src/lib/data-generator.ts`): per-road batch
processing of vehicles under the road's light color, followed by one road
update when vehicles exited. `rand` stands for the `Math.random()` draw of
an iteration. -/

structure MVehicle where
  id : ℕ
  position : ℚ
deriving DecidableEq

/-- The batched per-vehicle write: new position, and whether
`isMoving: false, exitedAt: new Date()` were recorded. -/
structure VehicleUpdate where
  id : ℕ
  position : ℚ
  exits : Bool
deriving DecidableEq

/-- `Math.min(0.9, 0.5 + (elapsed / greenTime) * 0.4)`. -/
def exitProbabilityGreen (elapsed greenTime : ℚ) : ℚ :=
  jsMin 0.9 (0.5 + elapsed / greenTime * 0.4)

/-- Movement of one vehicle on a GREEN road: it exits when the random draw
beats the exit probability or its position is already ≥ 0.8; otherwise it
advances by 0.3 capped at 1.0. -/
def processGreenVehicle (elapsed greenTime rand : ℚ) (v : MVehicle) : VehicleUpdate :=
  if rand < exitProbabilityGreen elapsed greenTime ∨ v.position ≥ 0.8 then
    ⟨v.id, 1, true⟩
  else
    ⟨v.id, jsMin (v.position + 0.3) 1, false⟩

/-- Movement of one vehicle on a YELLOW road: exit probability 0.7 when
position > 0.7, else 0.2; non-exiting vehicles creep by 0.08. -/
def processYellowVehicle (rand : ℚ) (v : MVehicle) : VehicleUpdate :=
  let exitProbability : ℚ := if v.position > 0.7 then 0.7 else 0.2
  if rand < exitProbability then ⟨v.id, 1, true⟩
  else ⟨v.id, jsMin (v.position + 0.08) 1, false⟩

/-- Movement of one vehicle on a RED road: creep by 0.02, never exit. -/
def processRedVehicle (v : MVehicle) : VehicleUpdate :=
  ⟨v.id, jsMin (v.position + 0.02) 1, false⟩

/-- `roadExitCount`: the number of processed vehicles that exited. -/
def roadExitCount (updates : List VehicleUpdate) : ℕ :=
  (updates.filter fun u => u.exits).length

/-- The road write at the end of a road's batch: performed only when
`roadExitCount > 0` and the freshly read `vehicleCount` is positive; the new
count is `Math.max(0, vehicleCount - roadExitCount)` and the new congestion is
`newVehicleCount > 0 ? Math.max(0, newVehicleCount / maxCapacity) : 0`.
Returns (vehicleCount, congestionLevel) after the update. -/
def roadAfterExits (vehicleCount maxCapacity : ℤ) (congestionLevel : ℚ)
    (exitCount : ℕ) : ℤ × ℚ :=
  if exitCount > 0 ∧ vehicleCount > 0 then
    let newVehicleCount := max 0 (vehicleCount - (exitCount : ℤ))
    (newVehicleCount,
      if newVehicleCount > 0 then jsMax 0 ((newVehicleCount : ℚ) / (maxCapacity : ℚ))
      else 0)
  else (vehicleCount, congestionLevel)

/-! Embedding of the vehicle-generation loop of `DataGenerator.generateVehicles`
(the last version in `src/lib/data-generator.ts`, lines 1576-1700). The road
snapshot (`roads`, with each road's light status) is fetched once before the
loop and never refreshed; each iteration filters that snapshot by
`availableCapacity > 0`, picks the highest-priority road (RED lights first),
then re-reads the road's stored count and writes `Math.max(0, count) + 1`
without any upper clamp. -/

structure GenRoad where
  id : ℕ
  vehicleCount : ℤ
  maxCapacity : ℤ
  lightStatus : Status
deriving DecidableEq

/-- `generationPriority`: 5 for RED, 2 for YELLOW, 0.3 for GREEN, default 1. -/
def generationPriority (s : Status) : ℚ :=
  if s = Status.RED then 5
  else if s = Status.YELLOW then 2
  else if s = Status.GREEN then 0.3
  else 1

/-- `Math.max(0, road.maxCapacity - Math.max(0, road.vehicleCount))` computed
from the pre-loop snapshot. -/
def availableCapacity (r : GenRoad) : ℤ :=
  max 0 (r.maxCapacity - max 0 r.vehicleCount)

/-- First element of the stable sort whose comparator puts RED-light roads
first and then orders by `generationPriority` descending. -/
def maxByGenPriority : List GenRoad → Option GenRoad
  | [] => none
  | r :: rs =>
    match maxByGenPriority rs with
    | none => some r
    | some m =>
      if generationPriority m.lightStatus > generationPriority r.lightStatus then some m
      else some r

/-- `availableRoads[0]`: the first RED-light road if any, otherwise the first
road of maximal generation priority. -/
def selectGenRoad (rs : List GenRoad) : Option GenRoad :=
  match rs.filter fun r => r.lightStatus = Status.RED with
  | r :: _ => some r
  | [] => maxByGenPriority rs

/-- The stored per-road vehicle counts (`db.road` records). -/
def dbUpdate (db : List (ℕ × ℤ)) (k : ℕ) (v : ℤ) : List (ℕ × ℤ) :=
  db.map fun p => if p.1 = k then (k, v) else p

/-- One iteration of the generation loop: `none` models the `break` taken when
no snapshot road has available capacity; otherwise the selected road's stored
count is re-read and `Math.max(0, current) + 1` is written. -/
def genIteration (snapshot : List GenRoad) (db : List (ℕ × ℤ)) :
    Option (List (ℕ × ℤ)) :=
  let available := snapshot.filter fun r => availableCapacity r > 0
  match selectGenRoad available with
  | none => none
  | some road =>
    match db.lookup road.id with
    | none => some db
    | some current => some (dbUpdate db road.id (max 0 current + 1))

/-- The `for (let i = 0; i < adjustedCount; i++)` loop over the fixed snapshot. -/
def generateVehiclesLoop (snapshot : List GenRoad) : ℕ → List (ℕ × ℤ) → List (ℕ × ℤ)
  | 0, db => db
  | n + 1, db =>
    match genIteration snapshot db with
    | none => db
    | some db2 => generateVehiclesLoop snapshot n db2

/-! ### Basic lemmas about the numeric helpers -/

theorem jsMin_eq (a b : ℚ) : jsMin a b = min a b := by
  rw [jsMin, min_def]

theorem jsMax_eq (a b : ℚ) : jsMax a b = max a b := by
  rw [jsMax, max_def]

theorem vcOf_nonneg (l : TrafficLight) : 0 ≤ l.vcOf :=
  le_max_left _ _

/-! ### Lemmas about the shared phase state machine -/

theorem phaseStep_green_ne_red (e : ℚ) (t : Timing) :
    phaseStep Status.GREEN e t ≠ Status.RED := by
  unfold phaseStep
  split_ifs with h1 h2 h3 <;> simp_all

theorem phaseStep_zero (s : Status) (t : Timing)
    (hr : 0 < t.red) (hy : 0 < t.yellow) (hg : 0 < t.green) :
    phaseStep s 0 t = s := by
  unfold phaseStep
  split_ifs with h1 h2 h3
  · exact absurd h1.2 (by simpa using hr)
  · exact absurd h2.2 (by simpa using hg)
  · exact absurd h3.2 (by simpa using hy)
  · rfl

/-! ### Lemmas about lookup in the coordination result lists -/

theorem mem_of_lookup_eq_some {es : List (ℕ × AlgorithmResult)} {k : ℕ}
    {v : AlgorithmResult} (h : es.lookup k = some v) : (k, v) ∈ es := by
  induction es with
  | nil => simp at h
  | cons p es ih =>
    obtain ⟨a, b⟩ := p
    rw [List.lookup_cons] at h
    by_cases hk : (k == a) = true
    · simp only [hk] at h
      have ha : a = k := by simpa using (beq_iff_eq.mp hk).symm
      have hb : b = v := by simpa using h
      subst ha; subst hb
      exact List.mem_cons_self _ _
    · rw [Bool.not_eq_true] at hk
      rw [hk] at h
      exact List.mem_cons_of_mem _ (ih h)

theorem lookup_idMap_eq_some {xs : List TrafficLight}
    {f : TrafficLight → AlgorithmResult} {k : ℕ} {v : AlgorithmResult}
    (h : (xs.map fun x => (x.id, f x)).lookup k = some v) :
    ∃ x, x ∈ xs ∧ x.id = k ∧ v = f x := by
  have hmem := mem_of_lookup_eq_some h
  rw [List.mem_map] at hmem
  obtain ⟨x, hx, hxe⟩ := hmem
  exact ⟨x, hx, by simpa using congrArg Prod.fst hxe,
    by simpa using (congrArg Prod.snd hxe).symm⟩

theorem lookup_idMap_ne_none {xs : List TrafficLight}
    {f : TrafficLight → AlgorithmResult} {l : TrafficLight} (hl : l ∈ xs) :
    (xs.map fun x => (x.id, f x)).lookup l.id ≠ none := by
  rw [Ne, List.lookup_eq_none_iff]
  intro hall
  have := hall (l.id, f l) (List.mem_map.mpr ⟨l, hl, rfl⟩)
  simp at this

/-! ### Lemmas about maxByVC -/

theorem maxByVC_eq_none {ls : List TrafficLight} (h : maxByVC ls = none) :
    ls = [] := by
  cases ls with
  | nil => rfl
  | cons l ls =>
    exfalso
    unfold maxByVC at h
    cases hrec : maxByVC ls with
    | none => rw [hrec] at h; simp at h
    | some m =>
      rw [hrec] at h
      dsimp only at h
      split_ifs at h

theorem maxByVC_mem {ls : List TrafficLight} {m : TrafficLight}
    (h : maxByVC ls = some m) : m ∈ ls := by
  induction ls generalizing m with
  | nil => simp [maxByVC] at h
  | cons l ls ih =>
    unfold maxByVC at h
    cases hrec : maxByVC ls with
    | none =>
      rw [hrec] at h; simp at h
      rw [← h]; exact List.mem_cons_self _ _
    | some m2 =>
      rw [hrec] at h; simp at h
      split at h
      · simp at h; rw [← h]; exact List.mem_cons_of_mem _ (ih hrec)
      · simp at h; rw [← h]; exact List.mem_cons_self _ _

theorem maxByVC_is_max {ls : List TrafficLight} {m : TrafficLight}
    (h : maxByVC ls = some m) : ∀ l ∈ ls, l.vcOf ≤ m.vcOf := by
  induction ls generalizing m with
  | nil => simp [maxByVC] at h
  | cons x ls ih =>
    unfold maxByVC at h
    intro l hl
    rcases List.mem_cons.mp hl with rfl | hl2
    · cases hrec : maxByVC ls with
      | none => rw [hrec] at h; simp at h; rw [← h]
      | some m2 =>
        rw [hrec] at h; simp at h
        split at h
        · next hgt => simp at h; rw [← h]; exact le_of_lt hgt
        · simp at h; rw [← h]
    · cases hrec : maxByVC ls with
      | none => rw [maxByVC_eq_none hrec] at hl2; simp at hl2
      | some m2 =>
        rw [hrec] at h; simp at h
        have hle := ih hrec l hl2
        split at h
        · simp at h; rw [← h]; exact hle
        · next hng =>
          simp at h
          rw [← h]
          exact le_trans hle (le_of_not_lt hng)

/-! ### Counting green lights after applying a coordination result -/

theorem applyLight_status (results : List (ℕ × AlgorithmResult))
    (l : TrafficLight) : (applyLight results l).status = statusAfter results l := by
  unfold applyLight statusAfter
  cases results.lookup l.id <;> rfl

theorem mem_id_inj {xs : List TrafficLight}
    (hids : (xs.map TrafficLight.id).Nodup) {a b : TrafficLight}
    (ha : a ∈ xs) (hb : b ∈ xs) (hid : a.id = b.id) : a = b :=
  List.inj_on_of_nodup_map hids ha hb hid

theorem two_mem_le_length {α : Type} {xs : List α} {a b : α}
    (ha : a ∈ xs) (hb : b ∈ xs) (hne : a ≠ b) : 2 ≤ xs.length := by
  induction xs with
  | nil => simp at ha
  | cons x xs ih =>
    rcases List.mem_cons.mp ha with rfl | ha2
    · rcases List.mem_cons.mp hb with rfl | hb2
      · exact absurd rfl hne
      · have : 1 ≤ xs.length := List.length_pos.mpr (List.ne_nil_of_mem hb2)
        simp only [List.length_cons]
        omega
    · have : 1 ≤ xs.length := List.length_pos.mpr (List.ne_nil_of_mem ha2)
      simp only [List.length_cons]
      omega

/-- If two members of a snapshot are both GREEN and have different ids, the
snapshot has at least two GREEN lights. -/
theorem green_unique {xs : List TrafficLight} (hle : greenCount xs ≤ 1)
    {a b : TrafficLight} (ha : a ∈ xs) (hb : b ∈ xs)
    (hga : a.status = Status.GREEN) (hgb : b.status = Status.GREEN)
    (hne : a.id ≠ b.id) : False := by
  have hane : a ≠ b := fun hab => hne (congrArg TrafficLight.id hab)
  have ha2 : a ∈ xs.filter fun l => l.status = Status.GREEN :=
    List.mem_filter.mpr ⟨ha, by simp [hga]⟩
  have hb2 : b ∈ xs.filter fun l => l.status = Status.GREEN :=
    List.mem_filter.mpr ⟨hb, by simp [hgb]⟩
  have := two_mem_le_length ha2 hb2 hane
  unfold greenCount at hle
  omega

/-- If every light that ends up GREEN after applying the results has the same
designated id, then at most one light of the snapshot is GREEN afterwards. -/
theorem greenCount_apply_le_one {xs : List TrafficLight}
    {results : List (ℕ × AlgorithmResult)}
    (hids : (xs.map TrafficLight.id).Nodup) (g : ℕ)
    (h : ∀ l ∈ xs, statusAfter results l = Status.GREEN → l.id = g) :
    greenCount (applyResults xs results) ≤ 1 := by
  induction xs with
  | nil => simp [applyResults, greenCount]
  | cons x xs ih =>
    rw [List.map_cons, List.nodup_cons] at hids
    unfold applyResults greenCount at ih ⊢
    rw [List.map_cons, List.filter_cons]
    by_cases hx : statusAfter results x = Status.GREEN
    · have hdec : decide ((applyLight results x).status = Status.GREEN) = true := by
        simp [applyLight_status, hx]
      rw [hdec]
      have hxg : x.id = g := h x (List.mem_cons_self _ _) hx
      have hzero : ∀ l ∈ xs, ¬(statusAfter results l = Status.GREEN) := by
        intro l hl hlg
        have hlid : l.id = g := h l (List.mem_cons_of_mem _ hl) hlg
        have : x.id ∈ List.map TrafficLight.id xs := by
          rw [hxg]
          exact List.mem_map.mpr ⟨l, hl, hlid⟩
        exact hids.1 this
      have hnil : List.filter (fun l => decide (l.status = Status.GREEN))
          (xs.map (applyLight results)) = [] := by
        rw [List.filter_eq_nil_iff]
        intro y hy
        rw [List.mem_map] at hy
        obtain ⟨z, hz, hze⟩ := hy
        rw [← hze]
        simp [applyLight_status, hzero z hz]
      rw [hnil]
      simp
    · have hdec : decide ((applyLight results x).status = Status.GREEN) = false := by
        simp [applyLight_status]
        exact hx
      rw [hdec]
      exact ih hids.2 (fun l hl => h l (List.mem_cons_of_mem _ hl))

/-- Eliminating `statusAfter … = GREEN`: either a GREEN entry of the result
list carries the light's id, or the light is not covered and was GREEN already. -/
theorem statusAfter_green_elim {B : List (ℕ × AlgorithmResult)} {l : TrafficLight}
    (hst : statusAfter B l = Status.GREEN) :
    (∃ r, (l.id, r) ∈ B ∧ r.newStatus = Status.GREEN) ∨
      ((∀ p ∈ B, l.id ≠ p.1) ∧ l.status = Status.GREEN) := by
  unfold statusAfter at hst
  cases hlk : B.lookup l.id with
  | some r =>
    rw [hlk] at hst
    exact Or.inl ⟨r, mem_of_lookup_eq_some hlk, hst⟩
  | none =>
    rw [hlk] at hst
    refine Or.inr ⟨?_, hst⟩
    rw [List.lookup_eq_none_iff] at hlk
    intro p hp
    simpa using hlk p hp

/-- Result lists of the shape "one head entry, then RED for a covering rest":
only the head id can come out GREEN. -/
theorem oneHead_green_id {lights : List TrafficLight} {a : ℕ}
    {r0 : AlgorithmResult} {f : TrafficLight → AlgorithmResult}
    {m : List TrafficLight}
    (hf : ∀ x, (f x).newStatus ≠ Status.GREEN)
    (hcov : ∀ l ∈ lights, l.id ≠ a → l ∈ m) :
    ∀ l ∈ lights,
      statusAfter ((a, r0) :: m.map fun x => (x.id, f x)) l = Status.GREEN →
      l.id = a := by
  intro l hl hst
  rcases statusAfter_green_elim hst with ⟨r, hmem, hg⟩ | ⟨hnone, _⟩
  · rcases List.mem_cons.mp hmem with heq | hmem2
    · exact congrArg Prod.fst heq
    · exfalso
      rw [List.mem_map] at hmem2
      obtain ⟨x, _, hxe⟩ := hmem2
      have : f x = r := congrArg Prod.snd hxe
      rw [← this] at hg
      exact hf x hg
  · exfalso
    by_cases hid : l.id = a
    · exact hnone (a, r0) (List.mem_cons_self _ _) hid
    · have hrl : l ∈ m := hcov l hl hid
      exact hnone (l.id, f l)
        (List.mem_cons_of_mem _ (List.mem_map.mpr ⟨l, hrl, rfl⟩)) rfl

/-- Result lists of the shape "two head entries (first never GREEN), then RED
for a covering rest": only the second head id can come out GREEN. -/
theorem twoHead_green_id {lights : List TrafficLight} {a b : ℕ}
    {r0 r1 : AlgorithmResult} {f : TrafficLight → AlgorithmResult}
    {m : List TrafficLight}
    (h0 : r0.newStatus ≠ Status.GREEN)
    (hf : ∀ x, (f x).newStatus ≠ Status.GREEN)
    (hcov : ∀ l ∈ lights, l.id ≠ a → l.id ≠ b → l ∈ m) :
    ∀ l ∈ lights,
      statusAfter ((a, r0) :: (b, r1) :: m.map fun x => (x.id, f x)) l =
        Status.GREEN → l.id = b := by
  intro l hl hst
  rcases statusAfter_green_elim hst with ⟨r, hmem, hg⟩ | ⟨hnone, _⟩
  · rcases List.mem_cons.mp hmem with heq | hmem2
    · exfalso
      have : r = r0 := congrArg Prod.snd heq
      rw [this] at hg
      exact h0 hg
    · rcases List.mem_cons.mp hmem2 with heq | hmem3
      · exact congrArg Prod.fst heq
      · exfalso
        rw [List.mem_map] at hmem3
        obtain ⟨x, _, hxe⟩ := hmem3
        have : f x = r := congrArg Prod.snd hxe
        rw [← this] at hg
        exact hf x hg
  · exfalso
    by_cases hid : l.id = a
    · exact hnone (a, r0) (List.mem_cons_self _ _) hid
    · by_cases hid2 : l.id = b
      · exact hnone (b, r1) (List.mem_cons_of_mem _ (List.mem_cons_self _ _)) hid2
      · have hrl : l ∈ m := hcov l hl hid hid2
        exact hnone (l.id, f l)
          (List.mem_cons_of_mem _ (List.mem_cons_of_mem _
            (List.mem_map.mpr ⟨l, hrl, rfl⟩))) rfl

/-! ### Only one designated light can come out GREEN from each branch -/

theorem yellowExpired_green_id (lights : List TrafficLight) (yl : TrafficLight) :
    ∃ g, ∀ l ∈ lights,
      statusAfter (yellowExpiredBranch lights yl) l = Status.GREEN → l.id = g := by
  cases hmax : maxByVC (lights.filter fun x => x.id ≠ yl.id) with
  | none =>
    refine ⟨yl.id, fun l hl hst => ?_⟩
    simp only [yellowExpiredBranch, hmax] at hst
    refine oneHead_green_id (m := ([] : List TrafficLight))
      (f := fun _ => ⟨Status.RED, ⟨15, 3, 8, 26⟩, none, none⟩)
      (fun x => by simp) ?_ l hl hst
    intro z hz hzid
    exfalso
    have hzf : z ∈ lights.filter fun x => x.id ≠ yl.id :=
      List.mem_filter.mpr ⟨hz, by simpa using hzid⟩
    rw [maxByVC_eq_none hmax] at hzf
    simp at hzf
  | some ng =>
    refine ⟨ng.id, fun l hl hst => ?_⟩
    simp only [yellowExpiredBranch, hmax, List.cons_append, List.nil_append] at hst
    refine twoHead_green_id (by simp) (fun x => by simp) ?_ l hl hst
    intro z hz hz1 hz2
    exact List.mem_filter.mpr
      ⟨List.mem_filter.mpr ⟨hz, by simpa using hz1⟩, by simpa using hz2⟩

theorem greenContinue_green_id (lights : List TrafficLight) (gl : TrafficLight)
    (greenTime : ℚ) :
    ∀ l ∈ lights,
      statusAfter (greenContinueBranch lights gl greenTime) l = Status.GREEN →
      l.id = gl.id := by
  intro l hl hst
  simp only [greenContinueBranch] at hst
  refine oneHead_green_id (fun x => by simp) ?_ l hl hst
  intro z hz hzid
  exact List.mem_filter.mpr ⟨hz, by simpa using hzid⟩

theorem greenToYellow_green_id (lights : List TrafficLight) (gl : TrafficLight)
    (greenTime : ℚ) :
    ∀ l ∈ lights,
      statusAfter (greenToYellowBranch lights gl greenTime) l = Status.GREEN →
      l.id = gl.id := by
  intro l hl hst
  simp only [greenToYellowBranch] at hst
  refine oneHead_green_id (fun x => by simp) ?_ l hl hst
  intro z hz hzid
  exact List.mem_filter.mpr ⟨hz, by simpa using hzid⟩

theorem newCycle_green_id (lights : List TrafficLight) :
    ∃ g, ∀ l ∈ lights,
      statusAfter (newCycleBranch lights) l = Status.GREEN → l.id = g := by
  cases hmax : maxByVC lights with
  | none =>
    refine ⟨0, fun l hl _ => ?_⟩
    exfalso
    rw [maxByVC_eq_none hmax] at hl
    simp at hl
  | some pl =>
    refine ⟨pl.id, fun l hl hst => ?_⟩
    simp only [newCycleBranch, hmax] at hst
    refine oneHead_green_id (fun x => by simp) ?_ l hl hst
    intro z hz hzid
    exact List.mem_filter.mpr ⟨hz, by simpa using hzid⟩

theorem noChange_no_green (lights : List TrafficLight)
    (hng : ∀ l ∈ lights, l.status ≠ Status.GREEN) :
    ∀ l ∈ lights, statusAfter (noChangeBranch lights) l ≠ Status.GREEN := by
  intro l hl hst
  rcases statusAfter_green_elim hst with ⟨r, hmem, hg⟩ | ⟨_, hgl⟩
  · simp only [noChangeBranch, List.mem_map] at hmem
    obtain ⟨x, hx, hxe⟩ := hmem
    have hxr : (⟨x.status, x.timing.getD ⟨15, 3, 8, 26⟩, none, none⟩ : AlgorithmResult) = r :=
      congrArg Prod.snd hxe
    rw [← hxr] at hg
    exact hng x hx hg
  · exact hng l hl hgl

theorem immediate_green_id (lights : List TrafficLight) (gl : TrafficLight)
    (hle : greenCount lights ≤ 1) (hgl : gl ∈ lights)
    (hglg : gl.status = Status.GREEN) :
    ∃ g, ∀ l ∈ lights,
      statusAfter (immediateBranch lights gl) l = Status.GREEN → l.id = g := by
  have hbase : ∀ l ∈ lights,
      statusAfter [(gl.id, (⟨Status.RED, ⟨8, 2, 7, 17⟩, none, none⟩ : AlgorithmResult))] l =
        Status.GREEN → l.id = gl.id := by
    intro l hl hst
    rcases statusAfter_green_elim hst with ⟨r, hmem, hg⟩ | ⟨_, hgl2⟩
    · exact congrArg Prod.fst (List.mem_singleton.mp hmem)
    · by_cases hid : l.id = gl.id
      · exact hid
      · exact absurd (green_unique hle hgl hl hglg hgl2 (fun h => hid h.symm)) id
  cases hmax : maxByVC (lights.filter fun x => x.id ≠ gl.id) with
  | none =>
    refine ⟨gl.id, fun l hl hst => ?_⟩
    simp only [immediateBranch, hmax] at hst
    exact hbase l hl hst
  | some nl =>
    by_cases hvc : nl.vcOf > 0
    · refine ⟨nl.id, fun l hl hst => ?_⟩
      simp only [immediateBranch, hmax, List.cons_append, List.nil_append] at hst
      rw [if_pos hvc] at hst
      refine twoHead_green_id (by simp) (fun x => by simp) ?_ l hl hst
      intro z hz hz1 hz2
      exact List.mem_filter.mpr ⟨hz, by simpa using And.intro hz1 hz2⟩
    · refine ⟨gl.id, fun l hl hst => ?_⟩
      simp only [immediateBranch, hmax] at hst
      rw [if_neg hvc] at hst
      exact hbase l hl hst

/-! ### Case analysis of the coordinator control flow -/

theorem coordGreen_cases (lights : List TrafficLight) (gl : TrafficLight)
    (y? : Option TrafficLight) (now : ℚ) :
    (coordAfterYellowCheck lights (some gl) y? now = immediateBranch lights gl
      ∧ gl.vcOf = 0
      ∧ ((lights.filter fun l => l.id ≠ gl.id).any fun l => decide (l.vcOf > 0)) = true
      ∧ now - gl.lastChanged ≥ 3)
    ∨ (coordAfterYellowCheck lights (some gl) y? now =
          greenToYellowBranch lights gl (greenTimeOf gl.vcOf)
        ∧ now - gl.lastChanged ≥ greenTimeOf gl.vcOf)
    ∨ coordAfterYellowCheck lights (some gl) y? now =
        greenContinueBranch lights gl (greenTimeOf gl.vcOf) := by
  unfold coordAfterYellowCheck
  dsimp only
  split_ifs with h1 h2
  · exact Or.inl ⟨rfl, h1.1, h1.2.1, h1.2.2⟩
  · exact Or.inr (Or.inl ⟨rfl, h2⟩)
  · exact Or.inr (Or.inr rfl)

theorem coordNoGreen_some (lights : List TrafficLight) (yv : TrafficLight) (now : ℚ) :
    coordAfterYellowCheck lights none (some yv) now = noChangeBranch lights := rfl

theorem coordNoGreen_none (lights : List TrafficLight) (now : ℚ) :
    coordAfterYellowCheck lights none none now = newCycleBranch lights := rfl

theorem coordinate_cases (i : Intersection) (now : ℚ) :
    (i.trafficLights.isEmpty = true ∧ coordinateIntersection i now = [])
    ∨ (∃ yl, i.trafficLights.find? (fun l => l.status = Status.YELLOW) = some yl
        ∧ now - yl.lastChanged ≥ 3
        ∧ coordinateIntersection i now = yellowExpiredBranch i.trafficLights yl)
    ∨ coordinateIntersection i now =
        coordAfterYellowCheck i.trafficLights
          (i.trafficLights.find? fun l => l.status = Status.GREEN)
          (i.trafficLights.find? fun l => l.status = Status.YELLOW) now := by
  unfold coordinateIntersection
  dsimp only
  by_cases hemp : i.trafficLights.isEmpty = true
  · rw [if_pos hemp]
    exact Or.inl ⟨hemp, rfl⟩
  · rw [if_neg hemp]
    cases hy : i.trafficLights.find? (fun l => l.status = Status.YELLOW) with
    | none => exact Or.inr (Or.inr rfl)
    | some yl =>
      dsimp only
      by_cases hyel : now - yl.lastChanged ≥ 3
      · rw [if_pos hyel]
        exact Or.inr (Or.inl ⟨yl, rfl, hyel, rfl⟩)
      · rw [if_neg hyel]
        exact Or.inr (Or.inr rfl)

/-- Master lemma: on an intersection with pairwise distinct light ids and at
most one GREEN light, every light the coordination result turns (or leaves)
GREEN carries one designated id. -/
theorem coordinate_green_id (i : Intersection) (now : ℚ)
    (hle : greenCount i.trafficLights ≤ 1) :
    ∃ g, ∀ l ∈ i.trafficLights,
      statusAfter (coordinateIntersection i now) l = Status.GREEN → l.id = g := by
  rcases coordinate_cases i now with ⟨hemp, heq⟩ | ⟨yl, _, _, heq⟩ | heq
  · refine ⟨0, fun l hl _ => ?_⟩
    exfalso
    rw [List.isEmpty_iff] at hemp
    rw [hemp] at hl
    simp at hl
  · rw [heq]
    exact yellowExpired_green_id i.trafficLights yl
  · rw [heq]
    cases hg : i.trafficLights.find? (fun l => l.status = Status.GREEN) with
    | some gl =>
      have hglmem : gl ∈ i.trafficLights := List.mem_of_find?_eq_some hg
      have hglg : gl.status = Status.GREEN := by simpa using List.find?_some hg
      rcases coordGreen_cases i.trafficLights gl
          (i.trafficLights.find? fun l => l.status = Status.YELLOW) now with
        ⟨hbr, _, _, _⟩ | ⟨hbr, _⟩ | hbr
      · rw [hbr]
        exact immediate_green_id i.trafficLights gl hle hglmem hglg
      · rw [hbr]
        exact ⟨gl.id, greenToYellow_green_id i.trafficLights gl _⟩
      · rw [hbr]
        exact ⟨gl.id, greenContinue_green_id i.trafficLights gl _⟩
    | none =>
      have hng : ∀ l ∈ i.trafficLights, l.status ≠ Status.GREEN := by
        intro l hl
        have := List.find?_eq_none.mp hg l hl
        simpa using this
      cases i.trafficLights.find? (fun l => l.status = Status.YELLOW) with
      | some yv =>
        rw [coordNoGreen_some]
        exact ⟨0, fun l hl hst =>
          absurd hst (noChange_no_green i.trafficLights hng l hl)⟩
      | none =>
        rw [coordNoGreen_none]
        exact newCycle_green_id i.trafficLights

/-! ### GREEN-to-RED analysis -/

theorem select_no_green_to_red (l : TrafficLight) (now : ℚ) (hour : ℤ)
    (hgl : l.status = Status.GREEN) :
    (selectAlgorithm l now hour).newStatus ≠ Status.RED := by
  unfold selectAlgorithm
  split_ifs with h
  · unfold emergency
    split_ifs with he
    · simp
    · dsimp only
      rw [hgl]
      exact phaseStep_green_ne_red _ _
  · cases l.intersectionAlgorithm.getD Algorithm.ADAPTIVE with
    | FIXED =>
      unfold fixedTiming
      dsimp only
      rw [hgl]
      exact phaseStep_green_ne_red _ _
    | ADAPTIVE =>
      unfold adaptiveTiming
      dsimp only
      rw [hgl]
      exact phaseStep_green_ne_red _ _
    | AI_OPTIMIZED =>
      unfold aiOptimized
      dsimp only
      rw [hgl]
      exact phaseStep_green_ne_red _ _
    | EMERGENCY =>
      unfold adaptiveTiming
      dsimp only
      rw [hgl]
      exact phaseStep_green_ne_red _ _

/-- A GREEN light is sent directly to RED by the coordinator only when an
expired YELLOW light is present, or in the immediate-switch path (its own road
empty, some other road non-empty, at least 3 seconds elapsed). -/
theorem coordinate_green_to_red (i : Intersection) (now : ℚ)
    (hids : (i.trafficLights.map TrafficLight.id).Nodup)
    (hle : greenCount i.trafficLights ≤ 1)
    (l : TrafficLight) (hl : l ∈ i.trafficLights) (hgl : l.status = Status.GREEN)
    (hred : statusAfter (coordinateIntersection i now) l = Status.RED) :
    (∃ yl ∈ i.trafficLights, yl.status = Status.YELLOW ∧ now - yl.lastChanged ≥ 3)
    ∨ (l.vcOf = 0 ∧ (∃ l2 ∈ i.trafficLights, l2.id ≠ l.id ∧ l2.vcOf > 0)
        ∧ now - l.lastChanged ≥ 3) := by
  rcases coordinate_cases i now with ⟨hemp, _⟩ | ⟨yl, hy, hyel, _⟩ | heq
  · exfalso
    rw [List.isEmpty_iff] at hemp
    rw [hemp] at hl
    simp at hl
  · left
    exact ⟨yl, List.mem_of_find?_eq_some hy, by simpa using List.find?_some hy, hyel⟩
  · cases hg : i.trafficLights.find? (fun x => x.status = Status.GREEN) with
    | none =>
      exfalso
      have := List.find?_eq_none.mp hg l hl
      simp [hgl] at this
    | some gl =>
      have hgleq : l = gl := by
        by_cases hlg : l = gl
        · exact hlg
        · exfalso
          have hid : l.id ≠ gl.id := fun hid =>
            hlg (mem_id_inj hids hl (List.mem_of_find?_eq_some hg) hid)
          exact green_unique hle hl (List.mem_of_find?_eq_some hg) hgl
            (by simpa using List.find?_some hg) hid
      subst hgleq
      rw [hg] at heq
      rw [heq] at hred
      rcases coordGreen_cases i.trafficLights l
          (i.trafficLights.find? fun x => x.status = Status.YELLOW) now with
        ⟨hbr, hvc, hany, hel⟩ | ⟨hbr, _⟩ | hbr
      · right
        refine ⟨hvc, ?_, hel⟩
        rw [List.any_eq_true] at hany
        obtain ⟨z, hz, hzvc⟩ := hany
        rw [List.mem_filter] at hz
        exact ⟨z, hz.1, by simpa using hz.2, by simpa using hzvc⟩
      · exfalso
        rw [hbr] at hred
        simp [statusAfter, greenToYellowBranch] at hred
      · exfalso
        rw [hbr] at hred
        simp [statusAfter, greenContinueBranch] at hred

/-! ### Zero-elapsed behaviour of the per-light algorithms -/

theorem vcOf_cast_nonneg (l : TrafficLight) : (0 : ℚ) ≤ (l.vcOf : ℚ) := by
  exact_mod_cast vcOf_nonneg l

theorem fixedTiming_zero (l : TrafficLight) :
    (fixedTiming l l.lastChanged).newStatus = l.status := by
  unfold fixedTiming
  dsimp only
  rw [sub_self]
  exact phaseStep_zero _ _ (by norm_num) (by norm_num) (by norm_num)

theorem adaptive_green_pos (l : TrafficLight) :
    0 < jsMin (7 + jsMin ((l.vcOf : ℚ) * 0.5) 8) 15 := by
  rw [jsMin_eq, jsMin_eq]
  have hvc := vcOf_cast_nonneg l
  have h1 : (0 : ℚ) ≤ min ((l.vcOf : ℚ) * 0.5) 8 :=
    le_min (by positivity) (by norm_num)
  exact lt_min (by linarith) (by norm_num)

theorem adaptiveTiming_zero (l : TrafficLight) :
    (adaptiveTiming l l.lastChanged).newStatus = l.status := by
  unfold adaptiveTiming
  dsimp only
  rw [sub_self]
  refine phaseStep_zero _ _ ?_ (by norm_num) ?_
  · rw [jsMax_eq]
    exact lt_max_of_lt_right (by norm_num)
  · exact adaptive_green_pos l

theorem aiOptimized_zero (l : TrafficLight) (hour : ℤ) :
    (aiOptimized l l.lastChanged hour).newStatus = l.status := by
  unfold aiOptimized
  dsimp only
  rw [sub_self]
  have hvc := vcOf_cast_nonneg l
  have hbonus : (0 : ℚ) ≤
      (if isPeakHour hour then (l.vcOf : ℚ) * 0.4 * 1.2 else (l.vcOf : ℚ) * 0.4) := by
    split_ifs <;> positivity
  refine phaseStep_zero _ _ ?_ (by norm_num) ?_
  · rw [jsMax_eq]
    exact lt_max_of_lt_right (by norm_num)
  · have hge : (7 : ℚ) ≤ jsMin (7 +
        (if isPeakHour hour then (l.vcOf : ℚ) * 0.4 * 1.2 else (l.vcOf : ℚ) * 0.4)) 15 := by
      rw [jsMin_eq]
      exact le_min (by linarith) (by norm_num)
    have hround : (1 : ℤ) ≤ round (jsMin (7 +
        (if isPeakHour hour then (l.vcOf : ℚ) * 0.4 * 1.2 else (l.vcOf : ℚ) * 0.4)) 15) := by
      rw [round_eq, Int.le_floor]
      push_cast
      linarith
    dsimp only
    exact_mod_cast lt_of_lt_of_le Int.zero_lt_one hround

theorem emergency_zero (l : TrafficLight) (hne : hasEmergencyVehicles l = false) :
    (emergency l l.lastChanged).newStatus = l.status := by
  unfold emergency
  rw [hne]
  dsimp only
  rw [sub_self]
  exact phaseStep_zero _ _ (by norm_num) (by norm_num) (by norm_num)

theorem select_zero_elapsed (l : TrafficLight) (hour : ℤ)
    (hne : hasEmergencyVehicles l = false) :
    (selectAlgorithm l l.lastChanged hour).newStatus = l.status := by
  unfold selectAlgorithm
  split_ifs with h
  · exact emergency_zero l hne
  · cases l.intersectionAlgorithm.getD Algorithm.ADAPTIVE with
    | FIXED => exact fixedTiming_zero l
    | ADAPTIVE => exact adaptiveTiming_zero l
    | AI_OPTIMIZED => exact aiOptimized_zero l hour
    | EMERGENCY => exact adaptiveTiming_zero l

/-! ### Emergency vehicles force GREEN through selectAlgorithm -/

theorem select_emergency_green (l : TrafficLight) (now : ℚ) (hour : ℤ)
    (he : hasEmergencyVehicles l = true) :
    (selectAlgorithm l now hour).newStatus = Status.GREEN := by
  unfold selectAlgorithm
  rw [if_pos (Or.inl he)]
  unfold emergency
  rw [he]
  simp

/-! ### Every algorithm result satisfies cycle = red + yellow + green -/

theorem select_cycle_sum (l : TrafficLight) (now : ℚ) (hour : ℤ) :
    (selectAlgorithm l now hour).timing.cycle =
      (selectAlgorithm l now hour).timing.red +
        (selectAlgorithm l now hour).timing.yellow +
        (selectAlgorithm l now hour).timing.green := by
  unfold selectAlgorithm
  split_ifs with h
  · unfold emergency
    split_ifs <;> norm_num
  · cases l.intersectionAlgorithm.getD Algorithm.ADAPTIVE with
    | FIXED => unfold fixedTiming; norm_num
    | ADAPTIVE => unfold adaptiveTiming; dsimp only
    | AI_OPTIMIZED => unfold aiOptimized; dsimp only
    | EMERGENCY => unfold adaptiveTiming; dsimp only

/-! ### The adaptive green-time formula -/

theorem adaptive_green_formula (l : TrafficLight) (now : ℚ) :
    (adaptiveTiming l now).timing.green = min (7 + (l.vcOf : ℚ) * 0.5) 15 := by
  unfold adaptiveTiming
  dsimp only
  rw [jsMin_eq, jsMin_eq]
  have h : (7 : ℚ) + min ((l.vcOf : ℚ) * 0.5) 8 = min (7 + (l.vcOf : ℚ) * 0.5) 15 := by
    rw [← min_add_add_left]
    norm_num
  rw [h, min_assoc, min_self]

/-! ### Vehicle movement and road updates -/

theorem processGreen_highpos_exits (elapsed greenTime rand : ℚ) (v : MVehicle)
    (hpos : v.position ≥ 0.8) :
    (processGreenVehicle elapsed greenTime rand v).exits = true ∧
    (processGreenVehicle elapsed greenTime rand v).position = 1 := by
  unfold processGreenVehicle
  rw [if_pos (Or.inr hpos)]
  exact ⟨rfl, rfl⟩

theorem roadAfterExits_spec (vc cap : ℤ) (cong : ℚ) (n : ℕ)
    (hn : 0 < n) (hvc : 0 < vc) (hcap : 0 < cap) :
    (roadAfterExits vc cap cong n).1 = max 0 (vc - n) ∧
    0 ≤ (roadAfterExits vc cap cong n).1 ∧
    (roadAfterExits vc cap cong n).2 =
      ((roadAfterExits vc cap cong n).1 : ℚ) / (cap : ℚ) := by
  unfold roadAfterExits
  rw [if_pos ⟨hn, hvc⟩]
  dsimp only
  refine ⟨rfl, le_max_left _ _, ?_⟩
  by_cases h : (0 : ℤ) < max 0 (vc - (n : ℤ))
  · rw [if_pos h, jsMax_eq, max_eq_right]
    have h0 : (0 : ℚ) ≤ ((max 0 (vc - (n : ℤ)) : ℤ) : ℚ) := by
      exact_mod_cast le_max_left 0 (vc - (n : ℤ))
    have hc : (0 : ℚ) < ((cap : ℤ) : ℚ) := by exact_mod_cast hcap
    positivity
  · rw [if_neg h]
    have hz : max 0 (vc - (n : ℤ)) = 0 :=
      le_antisymm (not_lt.mp h) (le_max_left _ _)
    rw [hz]
    norm_num

theorem roadAfterExits_bounds (vc cap : ℤ) (cong : ℚ) (n : ℕ) (hvc : 0 ≤ vc) :
    0 ≤ (roadAfterExits vc cap cong n).1 ∧ (roadAfterExits vc cap cong n).1 ≤ vc := by
  unfold roadAfterExits
  split_ifs with h
  · dsimp only
    exact ⟨le_max_left _ _, max_le hvc (by omega)⟩
  · exact ⟨hvc, le_refl vc⟩

/-! ### The generation loop keeps stored counts nonnegative -/

theorem genLoop_nonneg (snapshot : List GenRoad) (n : ℕ) (db : List (ℕ × ℤ))
    (h : ∀ p ∈ db, 0 ≤ p.2) :
    ∀ p ∈ generateVehiclesLoop snapshot n db, 0 ≤ p.2 := by
  induction n generalizing db with
  | zero => exact h
  | succ n ih =>
    unfold generateVehiclesLoop
    cases hit : genIteration snapshot db with
    | none => exact h
    | some db2 =>
      apply ih
      unfold genIteration at hit
      dsimp only at hit
      split at hit
      · exact absurd hit (by simp)
      · next road _ =>
        split at hit
        · have hdb : db = db2 := by simpa using hit
          rw [← hdb]
          exact h
        · next current _ =>
          have hdb2 : dbUpdate db road.id (max 0 current + 1) = db2 := by
            simpa using hit
          rw [← hdb2]
          intro p hp
          unfold dbUpdate at hp
          rw [List.mem_map] at hp
          obtain ⟨q, hq, hqe⟩ := hp
          by_cases hqid : q.1 = road.id
          · rw [if_pos hqid] at hqe
            rw [← hqe]
            have h0 : (0 : ℤ) ≤ max 0 current := le_max_left _ _
            dsimp only
            linarith
          · rw [if_neg hqid] at hqe
            rw [← hqe]
            exact h q hq

/-! ### Claim theorems -/

/-- Claim C1, counterexample: the `intersection_emergency` entry point does not
preserve the at-most-one-GREEN bound — on a two-light intersection whose
snapshot satisfies the bound, it makes both lights GREEN. -/
theorem C1_counterexample :
    greenCount [(⟨1, Status.RED, none, 0, none, none⟩ : TrafficLight),
        ⟨2, Status.RED, none, 0, none, none⟩] ≤ 1 ∧
    ¬ greenCount (intersectionEmergency
        [(⟨1, Status.RED, none, 0, none, none⟩ : TrafficLight),
         ⟨2, Status.RED, none, 0, none, none⟩] 0) ≤ 1 := by
  constructor
  · decide
  · decide

/-- Claim C1, amended: for an intersection snapshot with pairwise distinct
light ids and at most one GREEN light, applying the per-intersection
coordination step leaves at most one light GREEN (cap 1); the emergency entry
point, however, sets every light of the intersection to GREEN, so it violates
the cap on any intersection with more than one light. -/
theorem C1_amended_mutual_exclusion :
    (∀ (i : Intersection) (now : ℚ),
      (i.trafficLights.map TrafficLight.id).Nodup →
      greenCount i.trafficLights ≤ 1 →
      greenCount (applyResults i.trafficLights (coordinateIntersection i now)) ≤ 1)
    ∧ ∀ (lights : List TrafficLight) (now : ℚ),
        ∀ l ∈ intersectionEmergency lights now, l.status = Status.GREEN := by
  constructor
  · intro i now hids hle
    obtain ⟨g, hg⟩ := coordinate_green_id i now hle
    exact greenCount_apply_le_one hids g hg
  · intro lights now l hl
    unfold intersectionEmergency at hl
    rw [List.mem_map] at hl
    obtain ⟨x, _, hxe⟩ := hl
    rw [← hxe]

/-- Claim C1, witness: the coordination step applied to a concrete two-light
all-RED intersection keeps the green count at most 1. -/
theorem C1_witness :
    ((([(⟨1, Status.RED, none, 0, some ⟨5, 50, 0, 30, []⟩, none⟩ : TrafficLight),
        ⟨2, Status.RED, none, 0, some ⟨12, 50, 0, 30, []⟩, none⟩]).map
          TrafficLight.id).Nodup
      ∧ greenCount [(⟨1, Status.RED, none, 0, some ⟨5, 50, 0, 30, []⟩, none⟩ : TrafficLight),
          ⟨2, Status.RED, none, 0, some ⟨12, 50, 0, 30, []⟩, none⟩] ≤ 1)
    ∧ greenCount (applyResults
        (Intersection.mk [⟨1, Status.RED, none, 0, some ⟨5, 50, 0, 30, []⟩, none⟩,
          ⟨2, Status.RED, none, 0, some ⟨12, 50, 0, 30, []⟩, none⟩]).trafficLights
        (coordinateIntersection
          (Intersection.mk [⟨1, Status.RED, none, 0, some ⟨5, 50, 0, 30, []⟩, none⟩,
            ⟨2, Status.RED, none, 0, some ⟨12, 50, 0, 30, []⟩, none⟩]) 10)) ≤ 1 :=
  ⟨⟨by decide, by decide⟩,
    C1_amended_mutual_exclusion.1 _ 10 (by decide) (by decide)⟩

/-- Claim C2, counterexample: the coordinator's immediate-switch path sends a
GREEN light (empty road, another road with 5 vehicles, 4 seconds elapsed)
directly to RED, skipping YELLOW. -/
theorem C2_counterexample :
    (⟨1, Status.GREEN, none, 0, some ⟨0, 50, 0, 30, []⟩, none⟩ : TrafficLight).status
        = Status.GREEN ∧
    statusAfter
      (coordinateIntersection
        ⟨[⟨1, Status.GREEN, none, 0, some ⟨0, 50, 0, 30, []⟩, none⟩,
          ⟨2, Status.RED, none, 0, some ⟨5, 50, 0, 30, []⟩, none⟩]⟩ 4)
      ⟨1, Status.GREEN, none, 0, some ⟨0, 50, 0, 30, []⟩, none⟩ = Status.RED := by
  refine ⟨rfl, ?_⟩
  norm_num [statusAfter, coordinateIntersection, coordAfterYellowCheck, immediateBranch,
    greenToYellowBranch, greenContinueBranch, newCycleBranch, noChangeBranch,
    yellowExpiredBranch, maxByVC, greenTimeOf, nextGreenTimeOf, TrafficLight.vcOf,
    TrafficLight.congOf, jsMin, jsMax, List.find?, List.filter, List.lookup]

/-- Claim C2, amended: the per-light algorithms never send a GREEN light
directly to RED; the coordinator can do so only when an expired YELLOW light
is present at the intersection, or through the immediate-switch path (the
green light's road holds no vehicles, some other road does, and at least 3
seconds have elapsed), which deliberately skips YELLOW. -/
theorem C2_amended_no_green_to_red :
    (∀ (l : TrafficLight) (now : ℚ) (hour : ℤ), l.status = Status.GREEN →
        (selectAlgorithm l now hour).newStatus ≠ Status.RED)
    ∧ ∀ (i : Intersection) (now : ℚ),
        (i.trafficLights.map TrafficLight.id).Nodup →
        greenCount i.trafficLights ≤ 1 →
        ∀ l ∈ i.trafficLights, l.status = Status.GREEN →
          statusAfter (coordinateIntersection i now) l = Status.RED →
          (∃ yl ∈ i.trafficLights, yl.status = Status.YELLOW ∧ now - yl.lastChanged ≥ 3)
          ∨ (l.vcOf = 0 ∧ (∃ l2 ∈ i.trafficLights, l2.id ≠ l.id ∧ l2.vcOf > 0)
              ∧ now - l.lastChanged ≥ 3) :=
  ⟨select_no_green_to_red,
   fun i now hids hle l hl hgl hred =>
     coordinate_green_to_red i now hids hle l hl hgl hred⟩

/-- Claim C2, witness: on a concrete GREEN light the selected algorithm does
not return RED. -/
theorem C2_witness :
    (⟨1, Status.GREEN, none, 0, none, none⟩ : TrafficLight).status = Status.GREEN ∧
    (selectAlgorithm ⟨1, Status.GREEN, none, 0, none, none⟩ 5 0).newStatus ≠ Status.RED :=
  ⟨rfl, C2_amended_no_green_to_red.1 ⟨1, Status.GREEN, none, 0, none, none⟩ 5 0 rfl⟩

/-- Claim C3, counterexample: the generation loop is not clamped to
maxCapacity — a road with maxCapacity 1 and 0 stored vehicles reaches a stored
count of 2 after one generateVehicles call with count 2, because the capacity
filter uses the pre-loop snapshot. -/
theorem C3_counterexample :
    (⟨1, 0, 1, Status.RED⟩ : GenRoad).vehicleCount ≤
        (⟨1, 0, 1, Status.RED⟩ : GenRoad).maxCapacity ∧
    (generateVehiclesLoop [⟨1, 0, 1, Status.RED⟩] 2 [(1, 0)]).lookup 1 = some 2 ∧
    ¬ ((2 : ℤ) ≤ (⟨1, 0, 1, Status.RED⟩ : GenRoad).maxCapacity) := by
  refine ⟨by norm_num, ?_, by norm_num⟩
  decide

/-- Claim C3, amended: the exit decrement is clamped inside the road update
(the new count is max(0, count - exits), staying within [0, count]), and the
generation loop keeps every stored count nonnegative; but the generation
increment carries no maxCapacity clamp, so counts can exceed capacity within
one call. -/
theorem C3_amended_clamping :
    (∀ (vc cap : ℤ) (cong : ℚ) (n : ℕ), 0 ≤ vc →
        0 ≤ (roadAfterExits vc cap cong n).1 ∧ (roadAfterExits vc cap cong n).1 ≤ vc)
    ∧ ∀ (snapshot : List GenRoad) (n : ℕ) (db : List (ℕ × ℤ)),
        (∀ p ∈ db, 0 ≤ p.2) → ∀ p ∈ generateVehiclesLoop snapshot n db, 0 ≤ p.2 :=
  ⟨fun vc cap cong n hvc => roadAfterExits_bounds vc cap cong n hvc,
   fun snapshot n db h => genLoop_nonneg snapshot n db h⟩

/-- Claim C3, witness: a concrete exit decrement stays within [0, 5]. -/
theorem C3_witness :
    (0 : ℤ) ≤ 5 ∧
    0 ≤ (roadAfterExits 5 10 0 2).1 ∧ (roadAfterExits 5 10 0 2).1 ≤ 5 :=
  ⟨by norm_num, C3_amended_clamping.1 5 10 0 2 (by norm_num)⟩

/-- Claim C4, confirmed: when the light's road holds a vehicle of type
EMERGENCY with priority 2, selectAlgorithm routes through the emergency
variant and returns GREEN, whatever the configured algorithm, current phase
and elapsed time. -/
theorem C4_emergency_priority (l : TrafficLight) (r : Road) (v : Vehicle)
    (now : ℚ) (hour : ℤ)
    (hroad : l.road = some r) (hv : v ∈ r.vehicles)
    (ht : v.vtype = VehicleType.EMERGENCY) (hp : v.priority = 2) :
    (selectAlgorithm l now hour).newStatus = Status.GREEN := by
  apply select_emergency_green
  unfold hasEmergencyVehicles
  rw [hroad]
  show (r.vehicles.any fun v =>
    decide (v.vtype = VehicleType.EMERGENCY ∧ v.priority = 2)) = true
  rw [List.any_eq_true]
  exact ⟨v, hv, by simp [ht, hp]⟩

/-- Claim C4, witness: a concrete RED light with an EMERGENCY vehicle on its
road turns GREEN regardless of elapsed time. -/
theorem C4_witness :
    (⟨1, Status.RED, none, 0,
        some ⟨3, 50, 0, 30, [⟨VehicleType.EMERGENCY, 2, 0.5⟩]⟩, none⟩ :
      TrafficLight).road = some ⟨3, 50, 0, 30, [⟨VehicleType.EMERGENCY, 2, 0.5⟩]⟩ ∧
    (selectAlgorithm
      ⟨1, Status.RED, none, 0,
        some ⟨3, 50, 0, 30, [⟨VehicleType.EMERGENCY, 2, 0.5⟩]⟩, none⟩ 5 0).newStatus =
      Status.GREEN :=
  ⟨rfl, C4_emergency_priority _ _ ⟨VehicleType.EMERGENCY, 2, 0.5⟩ 5 0 rfl
    (List.mem_singleton.mpr rfl) rfl rfl⟩

/-- Claim C5, counterexample: with an EMERGENCY vehicle on the road, invoking
the algorithm with zero elapsed time (now equal to lastChanged) moves a RED
light to GREEN — a transition with no elapsed time, contradicting the claim
for the Emergency variant. -/
theorem C5_counterexample :
    (⟨1, Status.RED, none, 5,
        some ⟨3, 50, 0, 30, [⟨VehicleType.EMERGENCY, 2, 0.5⟩]⟩, none⟩ :
      TrafficLight).lastChanged = 5 ∧
    (selectAlgorithm
        ⟨1, Status.RED, none, 5,
          some ⟨3, 50, 0, 30, [⟨VehicleType.EMERGENCY, 2, 0.5⟩]⟩, none⟩ 5 0).newStatus ≠
      (⟨1, Status.RED, none, 5,
        some ⟨3, 50, 0, 30, [⟨VehicleType.EMERGENCY, 2, 0.5⟩]⟩, none⟩ :
      TrafficLight).status := by
  refine ⟨rfl, ?_⟩
  have hg := select_emergency_green
    ⟨1, Status.RED, none, 5,
      some ⟨3, 50, 0, 30, [⟨VehicleType.EMERGENCY, 2, 0.5⟩]⟩, none⟩ 5 0 (by decide)
  rw [hg]
  simp

/-- Claim C5, amended: with no EMERGENCY (priority 2) vehicle on the light's
road, invoking the selected algorithm with elapsed = 0 (now equal to
lastChanged) returns the light's current status for every variant; when such
a vehicle is present, the Emergency variant instead returns GREEN regardless
of elapsed time. -/
theorem C5_amended_idempotence :
    (∀ (l : TrafficLight) (hour : ℤ), hasEmergencyVehicles l = false →
        (selectAlgorithm l l.lastChanged hour).newStatus = l.status)
    ∧ ∀ (l : TrafficLight) (now : ℚ) (hour : ℤ), hasEmergencyVehicles l = true →
        (selectAlgorithm l now hour).newStatus = Status.GREEN :=
  ⟨fun l hour h => select_zero_elapsed l hour h,
   fun l now hour h => select_emergency_green l now hour h⟩

/-- Claim C5, witness: a concrete GREEN light with 4 vehicles and no emergency
vehicle keeps its status at zero elapsed time. -/
theorem C5_witness :
    hasEmergencyVehicles
      (⟨1, Status.GREEN, none, 7, some ⟨4, 50, 0, 30, []⟩, none⟩ : TrafficLight) = false ∧
    (selectAlgorithm
        (⟨1, Status.GREEN, none, 7, some ⟨4, 50, 0, 30, []⟩, none⟩ : TrafficLight)
        (⟨1, Status.GREEN, none, 7, some ⟨4, 50, 0, 30, []⟩, none⟩ : TrafficLight).lastChanged
        0).newStatus =
      (⟨1, Status.GREEN, none, 7, some ⟨4, 50, 0, 30, []⟩, none⟩ : TrafficLight).status :=
  ⟨rfl, C5_amended_idempotence.1
    ⟨1, Status.GREEN, none, 7, some ⟨4, 50, 0, 30, []⟩, none⟩ 0 rfl⟩

/-- Claim C6, counterexample: the update_timing action writes a timing with
red + yellow + green different from cycle verbatim — it is not rejected and
the previous valid timing is not retained. -/
theorem C6_counterexample :
    (⟨1, 1, 1, 99⟩ : Timing).red + (⟨1, 1, 1, 99⟩ : Timing).yellow +
        (⟨1, 1, 1, 99⟩ : Timing).green ≠ (⟨1, 1, 1, 99⟩ : Timing).cycle ∧
    (updateTimingAction
        ⟨1, Status.RED, some ⟨15, 3, 8, 26⟩, 0, none, none⟩ ⟨1, 1, 1, 99⟩ 5).timing =
      some ⟨1, 1, 1, 99⟩ := by
  constructor
  · norm_num
  · rfl

/-- Claim C6, amended: every timing produced by the algorithm selector
satisfies cycle = red + yellow + green, but the update_timing entry point
performs no validation: the provided timing is written verbatim (only the
status is untouched), whether or not it satisfies the invariant. -/
theorem C6_amended_timing :
    (∀ (l : TrafficLight) (now : ℚ) (hour : ℤ),
        (selectAlgorithm l now hour).timing.cycle =
          (selectAlgorithm l now hour).timing.red +
            (selectAlgorithm l now hour).timing.yellow +
            (selectAlgorithm l now hour).timing.green)
    ∧ ∀ (l : TrafficLight) (t : Timing) (now : ℚ),
        (updateTimingAction l t now).timing = some t ∧
        (updateTimingAction l t now).status = l.status :=
  ⟨select_cycle_sum, fun l t now => ⟨rfl, rfl⟩⟩

/-- Claim C7, counterexample: for a road with 20 vehicles the adaptive green
time is 15 seconds (base 7, bonus capped at 8), not the claimed
min(10 + 20, 30) = 30. -/
theorem C7_counterexample :
    (adaptiveTiming
        ⟨1, Status.RED, none, 0, some ⟨20, 50, 0, 30, []⟩, none⟩ 0).timing.green = 15 ∧
    (15 : ℚ) ≠ 30 := by
  constructor
  · norm_num [adaptiveTiming, TrafficLight.vcOf, TrafficLight.congOf,
      TrafficLight.congClamped, jsMin, jsMax]
  · norm_num

/-- Claim C7, amended: the adaptive algorithm computes the green duration as
green = min(base + vehicleCount × perVehicleBonus, max) with base = 7,
perVehicleBonus = 0.5 and max = 15 (the per-vehicle bonus is additionally
capped at 8, which coincides with the overall cap); for vehicleCount = 20 the
green time is therefore 15, not 30. -/
theorem C7_amended_adaptive_green (l : TrafficLight) (now : ℚ) :
    (adaptiveTiming l now).timing.green = min (7 + (l.vcOf : ℚ) * 0.5) 15 :=
  adaptive_green_formula l now

/-- Claim C8, confirmed: when no light of the intersection is GREEN or YELLOW,
the coordinator picks a light whose road has the maximal vehicle count, makes
it GREEN, and sets every other light RED. -/
theorem C8_new_cycle_selection (i : Intersection) (now : ℚ)
    (hne : i.trafficLights ≠ [])
    (hng : ∀ l ∈ i.trafficLights, l.status ≠ Status.GREEN ∧ l.status ≠ Status.YELLOW) :
    ∃ pl, pl ∈ i.trafficLights ∧
      (∀ l ∈ i.trafficLights, l.vcOf ≤ pl.vcOf) ∧
      statusAfter (coordinateIntersection i now) pl = Status.GREEN ∧
      ∀ l ∈ i.trafficLights, l.id ≠ pl.id →
        statusAfter (coordinateIntersection i now) l = Status.RED := by
  have hgnone : i.trafficLights.find? (fun l => l.status = Status.GREEN) = none := by
    rw [List.find?_eq_none]
    intro l hl
    simpa using (hng l hl).1
  have hynone : i.trafficLights.find? (fun l => l.status = Status.YELLOW) = none := by
    rw [List.find?_eq_none]
    intro l hl
    simpa using (hng l hl).2
  have hcoord : coordinateIntersection i now = newCycleBranch i.trafficLights := by
    rcases coordinate_cases i now with ⟨hemp, _⟩ | ⟨yl, hy, _, _⟩ | heq
    · exfalso
      rw [List.isEmpty_iff] at hemp
      exact hne hemp
    · rw [hynone] at hy
      exact absurd hy (by simp)
    · rw [heq, hgnone, hynone]
      exact coordNoGreen_none _ _
  rw [hcoord]
  cases hmax : maxByVC i.trafficLights with
  | none => exact absurd (maxByVC_eq_none hmax) hne
  | some pl =>
    refine ⟨pl, maxByVC_mem hmax, maxByVC_is_max hmax, ?_, ?_⟩
    · simp [newCycleBranch, hmax, statusAfter]
    · intro l hl hlid
      have hb : (l.id == pl.id) = false := beq_eq_false_iff_ne.mpr hlid
      simp only [newCycleBranch, hmax, statusAfter, List.lookup_cons, hb]
      have hrl : l ∈ i.trafficLights.filter fun x => x.id ≠ pl.id :=
        List.mem_filter.mpr ⟨hl, by simpa using hlid⟩
      cases hlk : ((i.trafficLights.filter fun x => x.id ≠ pl.id).map
          fun x => (x.id,
            (⟨Status.RED, ⟨12, 2, 8, 22⟩, none, none⟩ : AlgorithmResult))).lookup l.id with
      | none =>
        exact absurd hlk (lookup_idMap_ne_none
          (f := fun _ => ⟨Status.RED, ⟨12, 2, 8, 22⟩, none, none⟩) hrl)
      | some v =>
        obtain ⟨x, _, _, hveq⟩ := lookup_idMap_eq_some
          (f := fun _ => ⟨Status.RED, ⟨12, 2, 8, 22⟩, none, none⟩) hlk
        rw [hveq]

/-- Claim C8, witness: with three all-RED roads carrying 5, 12 and 3 vehicles,
the coordinator selects a maximal-count road (the one with 12) GREEN and sets
the others RED. -/
theorem C8_witness :
    ((Intersection.mk
        [⟨1, Status.RED, none, 0, some ⟨5, 50, 0, 30, []⟩, none⟩,
          ⟨2, Status.RED, none, 0, some ⟨12, 50, 0, 30, []⟩, none⟩,
          ⟨3, Status.RED, none, 0, some ⟨3, 50, 0, 30, []⟩, none⟩]).trafficLights ≠ []) ∧
    ∃ pl, pl ∈ (Intersection.mk
        [⟨1, Status.RED, none, 0, some ⟨5, 50, 0, 30, []⟩, none⟩,
          ⟨2, Status.RED, none, 0, some ⟨12, 50, 0, 30, []⟩, none⟩,
          ⟨3, Status.RED, none, 0, some ⟨3, 50, 0, 30, []⟩, none⟩]).trafficLights ∧
      (∀ l ∈ (Intersection.mk
          [⟨1, Status.RED, none, 0, some ⟨5, 50, 0, 30, []⟩, none⟩,
            ⟨2, Status.RED, none, 0, some ⟨12, 50, 0, 30, []⟩, none⟩,
            ⟨3, Status.RED, none, 0, some ⟨3, 50, 0, 30, []⟩, none⟩]).trafficLights,
          l.vcOf ≤ pl.vcOf) ∧
      statusAfter (coordinateIntersection (Intersection.mk
          [⟨1, Status.RED, none, 0, some ⟨5, 50, 0, 30, []⟩, none⟩,
            ⟨2, Status.RED, none, 0, some ⟨12, 50, 0, 30, []⟩, none⟩,
            ⟨3, Status.RED, none, 0, some ⟨3, 50, 0, 30, []⟩, none⟩]) 10) pl =
        Status.GREEN ∧
      ∀ l ∈ (Intersection.mk
          [⟨1, Status.RED, none, 0, some ⟨5, 50, 0, 30, []⟩, none⟩,
            ⟨2, Status.RED, none, 0, some ⟨12, 50, 0, 30, []⟩, none⟩,
            ⟨3, Status.RED, none, 0, some ⟨3, 50, 0, 30, []⟩, none⟩]).trafficLights,
          l.id ≠ pl.id →
          statusAfter (coordinateIntersection (Intersection.mk
              [⟨1, Status.RED, none, 0, some ⟨5, 50, 0, 30, []⟩, none⟩,
                ⟨2, Status.RED, none, 0, some ⟨12, 50, 0, 30, []⟩, none⟩,
                ⟨3, Status.RED, none, 0, some ⟨3, 50, 0, 30, []⟩, none⟩]) 10) l =
            Status.RED :=
  ⟨by decide, C8_new_cycle_selection _ 10 (by decide) (by decide)⟩

/-- Claim C9, confirmed: a vehicle at position 0.95 on a GREEN road exits on
the next movement tick whatever the random draw (its exit record is written),
and the road update decrements the count by exactly the number of exiting
vehicles, clamped at 0, with congestion recomputed as count / maxCapacity. -/
theorem C9_vehicle_exit (elapsed greenTime rand : ℚ) (v : MVehicle)
    (vc cap : ℤ) (cong : ℚ) (updates : List VehicleUpdate)
    (hpos : v.position = 0.95) (hn : 0 < roadExitCount updates)
    (hvc : 0 < vc) (hcap : 0 < cap) :
    (processGreenVehicle elapsed greenTime rand v).exits = true ∧
    (roadAfterExits vc cap cong (roadExitCount updates)).1 =
      max 0 (vc - roadExitCount updates) ∧
    0 ≤ (roadAfterExits vc cap cong (roadExitCount updates)).1 ∧
    (roadAfterExits vc cap cong (roadExitCount updates)).2 =
      ((roadAfterExits vc cap cong (roadExitCount updates)).1 : ℚ) / (cap : ℚ) := by
  have h1 := processGreen_highpos_exits elapsed greenTime rand v (by rw [hpos]; norm_num)
  have h2 := roadAfterExits_spec vc cap cong (roadExitCount updates) hn hvc hcap
  exact ⟨h1.1, h2.1, h2.2.1, h2.2.2⟩

/-- Claim C9, witness: one vehicle at 0.95 exits on a GREEN road with 5
vehicles and capacity 10; the count drops to 4. -/
theorem C9_witness :
    (⟨7, 0.95⟩ : MVehicle).position = 0.95 ∧
    0 < roadExitCount [⟨7, 1, true⟩] ∧
    ((processGreenVehicle 2 8 0.99 ⟨7, 0.95⟩).exits = true ∧
      (roadAfterExits 5 10 0 (roadExitCount [⟨7, 1, true⟩])).1 =
        max 0 (5 - roadExitCount [⟨7, 1, true⟩]) ∧
      0 ≤ (roadAfterExits 5 10 0 (roadExitCount [⟨7, 1, true⟩])).1 ∧
      (roadAfterExits 5 10 0 (roadExitCount [⟨7, 1, true⟩])).2 =
        ((roadAfterExits 5 10 0 (roadExitCount [⟨7, 1, true⟩])).1 : ℚ) / ((10 : ℤ) : ℚ)) :=
  ⟨rfl, by decide,
    C9_vehicle_exit 2 8 0.99 ⟨7, 0.95⟩ 5 10 0 [⟨7, 1, true⟩] rfl (by decide)
      (by norm_num) (by norm_num)⟩

/-- Claim C10, confirmed: the fixed algorithm's whole result depends only on
the light's status and lastChanged — two lights that agree on those two fields
but differ arbitrarily in id, stored timing, road data and configured
algorithm receive identical results at every instant, the hard-coded profile
red=15, yellow=3, green=8, cycle=26 included. -/
theorem C10_fixed_noninterference (s : Status) (lastChanged now : ℚ)
    (id1 id2 : ℕ) (t1 t2 : Option Timing) (r1 r2 : Option Road)
    (a1 a2 : Option Algorithm) :
    fixedTiming ⟨id1, s, t1, lastChanged, r1, a1⟩ now =
      fixedTiming ⟨id2, s, t2, lastChanged, r2, a2⟩ now := rfl

end Traffic
